import Mathlib

/-!
Shallow embedding of the repository's browser scripts and SQL script.

Sources embedded here:
* src/partD-frontend-owner.js   (owner page: fetchSuppliers, displayProductsForOrder,
  submitNewOrder, loadAllOrders, markOrderComplete, DOMContentLoaded handler)
* src/unnamed/part_000          (supplier page: addProductEntry, register/login form
  handlers, showOrdersView, loadOrders, approveOrder)
* src/unnamed/part_002          (SQL: People table, Ex1 Family_Tree INSERT, Ex2 spouse UPDATE)

Handlers are modelled as pure functions from their inputs (DOM-derived values and the
outcome of each network request they make) to a list of observable effects: alerts,
console messages, fetch calls with their JSON bodies, and DOM mutations. DOM writes
carry structured content instead of raw HTML strings so that rendered order rows keep
their fields (status, action buttons) inspectable.
-/

set_option autoImplicit false

namespace FrontendModel

/-- JavaScript truthiness of a possibly-missing string field:
falsy when the field is absent or the empty string. -/
def jsTruthyStr : Option String → Bool
  | some s => !(s == "")
  | none => false

/-- Truthiness-based defaulting, modelling the JS idiom a.field OR fallback:
the fallback is used when the field is absent or the empty string. -/
def jsOrStr : Option String → String → String
  | some s, fb => if s == "" then fb else s
  | none, fb => fb

/-- Model of the JS comparison quantity GREATER 0 where quantity is the result
of parseInt: none stands for NaN, and NaN compares false. -/
def jsGtZero : Option Int → Bool
  | some q => decide (0 < q)
  | none => false

/-- JavaScript truthiness of a possibly-missing numeric field: falsy when
absent or zero (models the total_amount test in both order renderers). -/
def jsTruthyNum : Option Rat → Option Rat
  | some t => if t = 0 then none else some t
  | none => none

/-- A product as delivered inside a supplier record by GET /suppliers. -/
structure Product where
  product_name : String
  price_per_item : Rat
deriving Repr, DecidableEq

/-- A supplier record from GET /suppliers; company_name and products can be
missing in the JSON, which the script guards against. -/
structure Supplier where
  company_name : Option String
  products : Option (List Product)
deriving Repr, DecidableEq

/-- A line item of an order. -/
structure OrderItem where
  product_name : String
  quantity : Int
  price_per_item : Rat
deriving Repr, DecidableEq

/-- An order as delivered by GET /orders/ or GET /orders/supplier/name. -/
structure Order where
  order_reference_id : String
  supplier_name : String
  items : List OrderItem
  total_amount : Option Rat
  status : String
deriving Repr, DecidableEq

/-- A JSON value, used for the bodies the scripts POST. -/
inductive Json where
  | str (s : String)
  | int (n : Int)
  | num (q : Rat)
  | arr (elems : List Json)
  | obj (fields : List (String × Json))
deriving Repr

/-- Top-level keys of a JSON object, in order. -/
def Json.topKeys : Json → List String
  | .obj fields => fields.map Prod.fst
  | _ => []

/-! Rendered DOM content. The scripts assemble HTML strings; we keep the data
those strings are built from, so properties of the rendering stay inspectable. -/

/-- One row of the owner page's orders table, as built by loadAllOrders.
completeBtnCall holds the order_reference_id passed to markOrderComplete when
the Confirm Receipt button is rendered, and is none when no button is rendered. -/
structure OwnerOrderRow where
  orderId : String
  supplierShown : String
  detailsShown : List (String × Int)
  totalShown : Option Rat
  statusShown : String
  completeBtnCall : Option String
deriving Repr, DecidableEq

/-- Embedding of the per-order table row built in loadAllOrders
(src/partD-frontend-owner.js lines 225-248): the button cell holds a
markOrderComplete button exactly when order.status equals the literal
string In Process. -/
def renderOwnerOrderRow (o : Order) : OwnerOrderRow :=
  { orderId := o.order_reference_id
    supplierShown := o.supplier_name
    detailsShown := o.items.map (fun it => (it.product_name, it.quantity))
    totalShown := jsTruthyNum o.total_amount
    statusShown := o.status
    completeBtnCall :=
      if o.status == "In Process" then some o.order_reference_id else none }

/-- One list item of the supplier page's orders list, as built by loadOrders.
approveBtnCall holds the order_reference_id passed to approveOrder when the
Approve Order button is rendered, and is none when no button is rendered. -/
structure SupplierOrderLi where
  orderId : String
  productsShown : List (String × Int × Rat)
  statusShown : String
  totalShown : Option Rat
  approveBtnCall : Option String
deriving Repr, DecidableEq

/-- Embedding of the per-order list item built in loadOrders
(src/unnamed/part_000 lines 271-289): the actions div holds an approveOrder
button exactly when order.status equals the literal string Pending. -/
def renderSupplierOrderLi (o : Order) : SupplierOrderLi :=
  { orderId := o.order_reference_id
    productsShown := o.items.map (fun it => (it.product_name, it.quantity, it.price_per_item))
    statusShown := o.status
    totalShown := jsTruthyNum o.total_amount
    approveBtnCall :=
      if o.status == "Pending" then some o.order_reference_id else none }

/-- Structured stand-in for the HTML strings the scripts write into the DOM. -/
inductive HtmlContent where
  | emptyContent
  | defaultSupplierOption
  | errorSuppliersOption
  | selectSupplierMsg
  | noProductsMsg
  | productCheckboxes (products : List Product)
  | loadingOrdersMsg
  | noOrdersMsg
  | ordersTable (rows : List OwnerOrderRow)
  | ordersErrorMsg
  | noSupplierOrdersMsg
  | supplierOrdersList (entries : List SupplierOrderLi)
  | supplierOrdersError (msg : String)
deriving Repr

/-- Whether a DOM write carries an error message (the three loader catch paths). -/
def HtmlContent.isErrorContent : HtmlContent → Bool
  | .errorSuppliersOption => true
  | .ordersErrorMsg => true
  | .supplierOrdersError _ => true
  | _ => false

/-- Observable effects of a handler run: dialogs, console output, network
requests and DOM mutations, in program order. -/
inductive Effect where
  | alertEff (msg : String)
  | confirmEff (msg : String)
  | consoleErrorEff (msg : String)
  | consoleWarnEff (msg : String)
  | fetchEff (method : String) (url : String) (body : Option Json)
  | setHTMLEff (target : String) (content : HtmlContent)
  | appendOptionEff (name : String)
  | assignSuppliersEff (val : List Supplier)
  | formResetEff (formId : String)
deriving Repr

def Effect.isAlert : Effect → Bool
  | .alertEff _ => true
  | _ => false

def Effect.isConsoleError : Effect → Bool
  | .consoleErrorEff _ => true
  | _ => false

def Effect.isFetch : Effect → Bool
  | .fetchEff _ _ _ => true
  | _ => false

def Effect.isAssignSuppliers : Effect → Bool
  | .assignSuppliersEff _ => true
  | _ => false

def Effect.isErrorHTML : Effect → Bool
  | .setHTMLEff _ c => c.isErrorContent
  | _ => false

def hasAlert (es : List Effect) : Bool := es.any Effect.isAlert

def hasConsoleError (es : List Effect) : Bool := es.any Effect.isConsoleError

def hasFetch (es : List Effect) : Bool := es.any Effect.isFetch

def hasErrorHTML (es : List Effect) : Bool := es.any Effect.isErrorHTML

/-- The JSON bodies attached to the fetch calls of a run, in order. -/
def postBodies (es : List Effect) : List Json :=
  es.filterMap (fun e =>
    match e with
    | .fetchEff _ _ (some b) => some b
    | _ => none)

/-- Replay of the assignments to the module variable suppliersData
(src/partD-frontend-owner.js line 10) performed by a run's effects. -/
def applySuppliers : List Effect → List Supplier → List Supplier
  | [], sd => sd
  | .assignSuppliersEff v :: rest, _ => applySuppliers rest v
  | _ :: rest, sd => applySuppliers rest sd

/-! Network request outcomes. Each async handler awaits fetch and response.json;
the outcome of that pair is a parameter of the embedded handler. -/

/-- Outcome of GET /suppliers followed by response.json in fetchSuppliers:
ok carries the (possibly missing) suppliers field of the parsed body;
httpErr is a response with ok false; netErr is a rejected fetch or a JSON
parse failure (both reach the same catch block). -/
inductive SuppliersFetch where
  | ok (suppliers : Option (List Supplier))
  | httpErr
  | netErr
deriving Repr, DecidableEq

def SuppliersFetch.isFail : SuppliersFetch → Bool
  | .ok _ => false
  | _ => true

/-- Outcome of GET /orders/ followed by response.json in loadAllOrders. -/
inductive OrdersFetch where
  | ok (orders : Option (List Order))
  | httpErr
  | netErr
deriving Repr

def OrdersFetch.isFail : OrdersFetch → Bool
  | .ok _ => false
  | _ => true

/-- Outcome of GET /orders/supplier/name in loadOrders: a non-ok response
carries the optional detail field of its JSON body and its status code, a
network error carries the thrown error's message string. -/
inductive SupplierOrdersFetch where
  | ok (orders : Option (List Order))
  | httpErr (detail : Option String) (statusText : String)
  | netErr (errMsg : String)
deriving Repr

def SupplierOrdersFetch.isFail : SupplierOrdersFetch → Bool
  | .ok _ => false
  | _ => true

/-- Outcome of a POST or PUT followed by response.json: ok carries the
optional message or id field the success branch reads; httpErr carries the
optional detail field and the response's statusText; netErr is a rejected
fetch or JSON parse failure. -/
inductive PostFetch where
  | ok (field : Option String)
  | httpErr (detail : Option String) (statusText : String)
  | netErr
deriving Repr, DecidableEq

def PostFetch.isFail : PostFetch → Bool
  | .ok _ => false
  | _ => true

/-! Owner page handlers (src/partD-frontend-owner.js). -/

/-- Embedding of fetchSuppliers (lines 24-49). On success it assigns
suppliersData from data.suppliers (or the empty array), resets the select to
the default option and appends one option per supplier that has a truthy
company_name, warning on the others; on any failure the catch block logs to
the console and writes an error option into the select. suppliersData is not
assigned on the failure path. -/
def fetchSuppliersRun (o : SuppliersFetch) : List Effect :=
  Effect.fetchEff "GET" "/suppliers" none ::
  match o with
  | .ok suppliers =>
      Effect.assignSuppliersEff (suppliers.getD []) ::
      Effect.setHTMLEff "supplierSelect" HtmlContent.defaultSupplierOption ::
      (suppliers.getD []).map (fun s =>
        if jsTruthyStr s.company_name then
          Effect.appendOptionEff (s.company_name.getD "")
        else
          Effect.consoleWarnEff "Skipping supplier with missing data:")
  | .httpErr =>
      [Effect.consoleErrorEff "Error fetching suppliers:",
       Effect.setHTMLEff "supplierSelect" HtmlContent.errorSuppliersOption]
  | .netErr =>
      [Effect.consoleErrorEff "Error fetching suppliers:",
       Effect.setHTMLEff "supplierSelect" HtmlContent.errorSuppliersOption]

/-- Embedding of displayProductsForOrder (lines 61-100): purely a DOM update
driven by the selected supplier name and the suppliersData array. -/
def displayProductsForOrderRun (selectedSupplierName : String)
    (suppliersData : List Supplier) : List Effect :=
  Effect.setHTMLEff "productsForOrder" HtmlContent.emptyContent ::
  if selectedSupplierName == "" then
    [Effect.setHTMLEff "productsForOrder" HtmlContent.selectSupplierMsg]
  else
    match suppliersData.find? (fun s => s.company_name == some selectedSupplierName) with
    | some sup =>
        match sup.products with
        | some prods =>
            if 0 < prods.length then
              [Effect.setHTMLEff "productsForOrder" (HtmlContent.productCheckboxes prods)]
            else
              [Effect.setHTMLEff "productsForOrder" HtmlContent.noProductsMsg]
        | none => [Effect.setHTMLEff "productsForOrder" HtmlContent.noProductsMsg]
    | none => [Effect.setHTMLEff "productsForOrder" HtmlContent.noProductsMsg]

/-- Embedding of loadAllOrders (lines 194-274): loading indicator, GET, and
either the rendered table, an empty-list message, or the catch block's
console log plus error paragraph. -/
def loadAllOrdersRun (o : OrdersFetch) : List Effect :=
  Effect.setHTMLEff "allOrdersList" HtmlContent.loadingOrdersMsg ::
  Effect.fetchEff "GET" "/orders/" none ::
  match o with
  | .ok orders =>
      if (orders.getD []).length = 0 then
        [Effect.setHTMLEff "allOrdersList" HtmlContent.emptyContent,
         Effect.setHTMLEff "allOrdersList" HtmlContent.noOrdersMsg]
      else
        [Effect.setHTMLEff "allOrdersList" HtmlContent.emptyContent,
         Effect.setHTMLEff "allOrdersList"
           (HtmlContent.ordersTable ((orders.getD []).map renderOwnerOrderRow))]
  | .httpErr =>
      [Effect.consoleErrorEff "Error loading orders:",
       Effect.setHTMLEff "allOrdersList" HtmlContent.ordersErrorMsg]
  | .netErr =>
      [Effect.consoleErrorEff "Error loading orders:",
       Effect.setHTMLEff "allOrdersList" HtmlContent.ordersErrorMsg]

/-- A checked product row of the new-order form at submission time:
the checkbox value, the parseInt result of the paired quantity input
(none models NaN), and the parseFloat result of the data-price attribute. -/
structure CheckedProduct where
  product_name : String
  quantityVal : Option Int
  priceVal : Rat
deriving Repr, DecidableEq

/-- The items array built by the checkedProducts.forEach loop of
submitNewOrder (lines 130-145): a checked product contributes an item
exactly when its parsed quantity compares greater than zero. -/
def collectItems : List CheckedProduct → List OrderItem
  | [] => []
  | cp :: rest =>
      if jsGtZero cp.quantityVal then
        { product_name := cp.product_name,
          quantity := cp.quantityVal.getD 0,
          price_per_item := cp.priceVal } :: collectItems rest
      else
        collectItems rest

/-- JSON for one item of the order payload (lines 137-141). -/
def itemJson (it : OrderItem) : Json :=
  Json.obj [("product_name", Json.str it.product_name),
            ("quantity", Json.int it.quantity),
            ("price_per_item", Json.num it.price_per_item)]

/-- The order payload of submitNewOrder (lines 153-157): exactly the fields
supplier_name and items. -/
def orderPayload (supplierName : String) (items : List OrderItem) : Json :=
  Json.obj [("supplier_name", Json.str supplierName),
            ("items", Json.arr (items.map itemJson))]

/-- The console warnings emitted by the checkedProducts.forEach loop of
submitNewOrder, one per checked product whose parsed quantity is not
greater than zero (line 143). -/
def submitWarns (checked : List CheckedProduct) : List Effect :=
  checked.filterMap (fun cp =>
    if jsGtZero cp.quantityVal then none
    else some (Effect.consoleWarnEff ("Invalid quantity for " ++ cp.product_name)))

/-- Embedding of submitNewOrder (lines 114-180). Validation: a falsy
(empty) supplier selection alerts and returns; an empty checked list alerts
and returns; the collection loop warns for each checked product whose parsed
quantity is not greater than zero; an empty items array alerts and returns.
Otherwise the payload is POSTed to /orders/ and the response branches into a
success alert plus form reset plus a loadAllOrders refresh, an error alert,
or the catch block's console log plus alert. -/
def submitNewOrderRun (selectedSupplierName : String) (checked : List CheckedProduct)
    (postOutcome : PostFetch) (refreshOutcome : OrdersFetch) : List Effect :=
  if selectedSupplierName == "" then
    [Effect.alertEff "Please select a supplier."]
  else if checked.length = 0 then
    [Effect.alertEff "Please select at least one product to order."]
  else
    submitWarns checked ++
    if (collectItems checked).length = 0 then
      [Effect.alertEff "Please ensure all selected products have a quantity greater than 0."]
    else
      Effect.fetchEff "POST" "/orders/"
        (some (orderPayload selectedSupplierName (collectItems checked))) ::
      match postOutcome with
      | .ok refId =>
          Effect.alertEff ("Order " ++ refId.getD "" ++ " created successfully!") ::
          Effect.formResetEff "newOrderForm" ::
          Effect.setHTMLEff "productsForOrder" HtmlContent.selectSupplierMsg ::
          loadAllOrdersRun refreshOutcome
      | .httpErr detail statusText =>
          [Effect.alertEff ("Error creating order: " ++ jsOrStr detail statusText)]
      | .netErr =>
          [Effect.consoleErrorEff "Error submitting order:",
           Effect.alertEff "An unexpected error occurred while submitting the order."]

/-- Embedding of markOrderComplete (lines 287-315): confirm dialog, then a
PUT whose response branches into a success alert plus a loadAllOrders
refresh, an error alert, or the catch block's console log plus alert. -/
def markOrderCompleteRun (orderRefId : String) (confirmed : Bool)
    (putOutcome : PostFetch) (refreshOutcome : OrdersFetch) : List Effect :=
  Effect.confirmEff ("Confirm receipt of order " ++ orderRefId ++ "?") ::
  if !confirmed then []
  else
    Effect.fetchEff "PUT" ("/orders/complete/placeholder?order_ref_id=" ++ orderRefId) none ::
    match putOutcome with
    | .ok message =>
        Effect.alertEff (jsOrStr message "Order marked as completed!") ::
        loadAllOrdersRun refreshOutcome
    | .httpErr detail statusText =>
        [Effect.alertEff ("Error marking order as complete: " ++ jsOrStr detail statusText)]
    | .netErr =>
        [Effect.consoleErrorEff "Error completing order:",
         Effect.alertEff "An unexpected error occurred while marking the order as complete."]

/-! Supplier page handlers (src/unnamed/part_000). -/

/-- One .product-entry row of the registration form at submission time.
inputsPresent models the querySelector existence check; productName is the
trimmed name value; priceVal and minQtyVal are the parseFloat and parseInt
results of the other two inputs, none modelling NaN. -/
structure ProductEntry where
  inputsPresent : Bool
  productName : String
  priceVal : Option Rat
  minQtyVal : Option Int
deriving Repr, DecidableEq

/-- The validity test of one complete row (line 98): truthy name,
non-NaN price at least zero, non-NaN minimum quantity at least one. -/
def entryFieldsValid (e : ProductEntry) : Bool :=
  !(e.productName == "") &&
  (match e.priceVal with
   | some p => decide (0 ≤ p)
   | none => false) &&
  (match e.minQtyVal with
   | some q => decide (1 ≤ q)
   | none => false)

/-- A row keeps formIsValid true exactly when its inputs exist and pass the
field validity test (lines 92-115). -/
def entryValid (e : ProductEntry) : Bool :=
  e.inputsPresent && entryFieldsValid e

/-- A product of the registration payload. -/
structure RegProduct where
  product_name : String
  price_per_item : Rat
  minimum_quantity : Int
deriving Repr, DecidableEq

/-- The product record a valid row pushes (lines 99-103). -/
def entryProduct (e : ProductEntry) : RegProduct :=
  { product_name := e.productName,
    price_per_item := e.priceVal.getD 0,
    minimum_quantity := e.minQtyVal.getD 0 }

/-- The products array collected by the productEntries.forEach loop:
exactly the valid rows' products, in order. -/
def collectProducts : List ProductEntry → List RegProduct
  | [] => []
  | e :: rest =>
      if entryValid e then entryProduct e :: collectProducts rest
      else collectProducts rest

/-- JSON for one product of the registration payload. -/
def regProductJson (p : RegProduct) : Json :=
  Json.obj [("product_name", Json.str p.product_name),
            ("price_per_item", Json.num p.price_per_item),
            ("minimum_quantity", Json.int p.minimum_quantity)]

/-- The registration payload (lines 132-137). -/
def registerPayload (companyName phone representativeName : String)
    (products : List RegProduct) : Json :=
  Json.obj [("company_name", Json.str companyName),
            ("phone", Json.str phone),
            ("representative_name", Json.str representativeName),
            ("products", Json.arr (products.map regProductJson))]

/-- The console warnings emitted by the productEntries.forEach loop of the
registration handler, one per invalid or incomplete row (lines 109, 114). -/
def registerWarns (entries : List ProductEntry) : List Effect :=
  entries.filterMap (fun e =>
    if e.inputsPresent then
      if entryFieldsValid e then none
      else some (Effect.consoleWarnEff "Invalid product entry skipped:")
    else some (Effect.consoleWarnEff "Incomplete product entry skipped:"))

/-- Embedding of the registration submit handler (lines 73-163): the
collection loop warns per invalid or incomplete row; an invalid form alerts
and returns; an empty products array alerts and returns; otherwise the
payload is POSTed to /suppliers/register and the response branches into a
success alert plus form reset, an error alert, or the catch block's console
log plus alert. -/
def registerRun (companyName phone representativeName : String)
    (entries : List ProductEntry) (outcome : PostFetch) : List Effect :=
  registerWarns entries ++
  if !(entries.all entryValid) then
    [Effect.alertEff "Please ensure all product fields (Name, Price >= 0, Min Qty >= 1) are correctly filled."]
  else if (collectProducts entries).length = 0 then
    [Effect.alertEff "Please add at least one valid product."]
  else
    Effect.fetchEff "POST" "/suppliers/register"
      (some (registerPayload companyName phone representativeName (collectProducts entries))) ::
    match outcome with
    | .ok message =>
        [Effect.alertEff (jsOrStr message "Supplier registered successfully!"),
         Effect.formResetEff "registerForm",
         Effect.setHTMLEff "productsList" HtmlContent.emptyContent]
    | .httpErr detail statusText =>
        [Effect.alertEff ("Registration Error: " ++ jsOrStr detail statusText)]
    | .netErr =>
        [Effect.consoleErrorEff "Registration Error:",
         Effect.alertEff "An unexpected error occurred during registration."]

/-- Embedding of loadOrders (lines 249-298): loading indicator, GET, and
either the rendered order list, an empty message, or the catch block's
console log plus inline error paragraph built from the thrown message. -/
def loadOrdersRun (companyName : String) (o : SupplierOrdersFetch) : List Effect :=
  Effect.setHTMLEff "ordersList" HtmlContent.loadingOrdersMsg ::
  Effect.fetchEff "GET" ("/orders/supplier/" ++ companyName) none ::
  match o with
  | .ok orders =>
      Effect.setHTMLEff "ordersList" HtmlContent.emptyContent ::
      (match orders with
       | some os =>
           if 0 < os.length then
             [Effect.setHTMLEff "ordersList"
               (HtmlContent.supplierOrdersList (os.map renderSupplierOrderLi))]
           else
             [Effect.setHTMLEff "ordersList" HtmlContent.noSupplierOrdersMsg]
       | none => [Effect.setHTMLEff "ordersList" HtmlContent.noSupplierOrdersMsg])
  | .httpErr detail statusText =>
      [Effect.consoleErrorEff "Error loading orders:",
       Effect.setHTMLEff "ordersList"
         (HtmlContent.supplierOrdersError ("Error loading orders: " ++ jsOrStr detail statusText))]
  | .netErr errMsg =>
      [Effect.consoleErrorEff "Error loading orders:",
       Effect.setHTMLEff "ordersList"
         (HtmlContent.supplierOrdersError (jsOrStr (some errMsg) "Error loading orders."))]

/-- Embedding of the login submit handler (lines 177-211): empty credentials
alert and return; otherwise the credentials are POSTed and the response
branches into a success alert plus showOrdersView (which awaits loadOrders),
an error alert, or the catch block's console log plus alert. -/
def loginRun (companyName phone : String) (outcome : PostFetch)
    (ordersOutcome : SupplierOrdersFetch) : List Effect :=
  if companyName == "" || phone == "" then
    [Effect.alertEff "Please enter both Company Name and Phone Number."]
  else
    Effect.fetchEff "POST" "/suppliers/login"
      (some (Json.obj [("company_name", Json.str companyName), ("phone", Json.str phone)])) ::
    match outcome with
    | .ok message =>
        Effect.alertEff (jsOrStr message "Login successful!") ::
        loadOrdersRun companyName ordersOutcome
    | .httpErr detail statusText =>
        [Effect.alertEff ("Login Error: " ++ jsOrStr detail statusText)]
    | .netErr =>
        [Effect.consoleErrorEff "Login Error:",
         Effect.alertEff "An unexpected error occurred during login."]

/-- Embedding of approveOrder (lines 314-350): confirm dialog, then a PUT
whose response branches into a success alert plus a loadOrders refresh for
the displayed company name (console error when that name is falsy), an error
alert, or the catch block's console log plus alert. -/
def approveOrderRun (orderRefId : String) (confirmed : Bool) (loggedName : String)
    (putOutcome : PostFetch) (refreshOutcome : SupplierOrdersFetch) : List Effect :=
  Effect.confirmEff ("Are you sure you want to approve order " ++ orderRefId ++ "?") ::
  if !confirmed then []
  else
    Effect.fetchEff "PUT" ("/orders/approve/placeholder?order_ref_id=" ++ orderRefId) none ::
    match putOutcome with
    | .ok message =>
        Effect.alertEff (jsOrStr message "Order approved successfully!") ::
        (if loggedName == "" then
          [Effect.consoleErrorEff "Could not determine the company name to reload orders."]
        else
          loadOrdersRun loggedName refreshOutcome)
    | .httpErr detail statusText =>
        [Effect.alertEff ("Error approving order: " ++ jsOrStr detail statusText)]
    | .netErr =>
        [Effect.consoleErrorEff "Error approving order:",
         Effect.alertEff "An unexpected error occurred while approving the order."]

/-! Async scheduling model for the concurrency claim. A handler's network
activity is a sequence of request-start and request-finish events. Handlers
that await each fetch before issuing the next produce an alternating trace;
the DOMContentLoaded handler (src/partD-frontend-owner.js lines 321-324)
invokes fetchSuppliers() and loadAllOrders() without awaiting either, so in
the JS event loop both functions run up to their first await before any
response is delivered: both requests start before either finishes. -/

/-- A network request lifecycle event, identified by a request number. -/
inductive NetEvent where
  | start (id : Nat)
  | finish (id : Nat)
deriving Repr, DecidableEq

/-- Fold computing the maximal number of simultaneously outstanding
requests along a trace, given the current count and the maximum so far. -/
def maxOutstandingAux : List NetEvent → Nat → Nat → Nat
  | [], _, m => m
  | NetEvent.start _ :: rest, cur, m => maxOutstandingAux rest (cur + 1) (max m (cur + 1))
  | NetEvent.finish _ :: rest, cur, m => maxOutstandingAux rest (cur - 1) m

/-- The maximal number of simultaneously outstanding requests of a trace. -/
def maxOutstanding (tr : List NetEvent) : Nat :=
  maxOutstandingAux tr 0 0

/-- The trace of a handler that awaits every fetch before issuing the next:
each of the n requests starts and finishes before its successor starts.
Every handler of both scripts except the DOMContentLoaded handler has this
shape (each fetch sits under await, and chained refreshes run only after the
triggering response arrived). -/
def awaitedTraceAux : Nat → Nat → List NetEvent
  | _, 0 => []
  | i, n + 1 => NetEvent.start i :: NetEvent.finish i :: awaitedTraceAux (i + 1) n

/-- The awaited trace of a run, one sequential request per fetch effect. -/
def awaitedTrace (es : List Effect) : List NetEvent :=
  awaitedTraceAux 0 (es.filter Effect.isFetch).length

/-- The trace of the DOMContentLoaded handler: fetchSuppliers() runs to its
await fetch (request 0 starts), control returns without awaiting the
promise, loadAllOrders() runs to its await fetch (request 1 starts), and
only then can either response be delivered. -/
def pageLoadTrace : List NetEvent :=
  [NetEvent.start 0, NetEvent.start 1, NetEvent.finish 0, NetEvent.finish 1]

end FrontendModel

namespace SqlModel

/-- A row of the People table (src/unnamed/part_001 lines 1-10):
nullable columns are Option-valued. -/
structure Person where
  person_id : Int
  personal_name : String
  family_name : String
  gender : String
  father_id : Option Int
  mother_id : Option Int
  spouse_id : Option Int
deriving Repr, DecidableEq

/-- A row of the Family_Tree table. -/
structure FamilyRow where
  person_id : Int
  relative_id : Int
  connection_type : String
deriving Repr, DecidableEq

/-- SQL equality on nullable columns: true only when both sides are
non-null and equal (a comparison involving NULL is not true). -/
def optEqSQL : Option Int → Option Int → Bool
  | some a, some b => a == b
  | _, _ => false

/-- Rows of the father branch of the Ex1 INSERT (src/unnamed/part_001
lines 32-34): one father row per person with a non-null Father_Id. -/
def fatherRows (people : List Person) : List FamilyRow :=
  people.filterMap (fun p =>
    p.father_id.map (fun f => { person_id := p.person_id, relative_id := f, connection_type := "father" }))

/-- Rows of the mother branch (lines 39-41). -/
def motherRows (people : List Person) : List FamilyRow :=
  people.filterMap (fun p =>
    p.mother_id.map (fun m => { person_id := p.person_id, relative_id := m, connection_type := "mother" }))

/-- Rows of the sibling branch (lines 46-53): the self-join on a shared
parent id, restricted to distinct persons, where the WHERE clause requires
both parent columns of p1 non-null and the label is chosen by the gender of
p1, the Person_Id side of the row. -/
def siblingRows (people : List Person) : List FamilyRow :=
  people.flatMap (fun p1 =>
    people.filterMap (fun p2 =>
      if (optEqSQL p1.father_id p2.father_id || optEqSQL p1.mother_id p2.mother_id)
          && !(p1.person_id == p2.person_id)
          && p1.father_id.isSome && p1.mother_id.isSome then
        some { person_id := p1.person_id, relative_id := p2.person_id,
               connection_type := if p1.gender == "M" then "brother" else "sister" }
      else none))

/-- Rows of the children-from-father branch (lines 58-61): the label is
chosen by the gender of the child, the Relative_Id side of the row. -/
def fatherChildRows (people : List Person) : List FamilyRow :=
  people.filterMap (fun p =>
    p.father_id.map (fun f =>
      { person_id := f, relative_id := p.person_id,
        connection_type := if p.gender == "M" then "son" else "daughter" }))

/-- Rows of the children-from-mother branch (lines 66-69). -/
def motherChildRows (people : List Person) : List FamilyRow :=
  people.filterMap (fun p =>
    p.mother_id.map (fun m =>
      { person_id := m, relative_id := p.person_id,
        connection_type := if p.gender == "M" then "son" else "daughter" }))

/-- Rows of the spouse branch (lines 74-77): the label is chosen by the
gender of the person holding the Spouse_Id column. -/
def spouseRows (people : List Person) : List FamilyRow :=
  people.filterMap (fun p =>
    p.spouse_id.map (fun s =>
      { person_id := p.person_id, relative_id := s,
        connection_type := if p.gender == "M" then "wife" else "husband" }))

/-- The full row set produced by the Ex1 INSERT's UNION ALL of the six
branches (lines 29-77). -/
def familyTreeInsert (people : List Person) : List FamilyRow :=
  fatherRows people ++ motherRows people ++ siblingRows people ++
  fatherChildRows people ++ motherChildRows people ++ spouseRows people

/-- The Ex2 update of a single row (src/unnamed/part_001 lines 83-94),
evaluated against the pre-update snapshot of the table: when the row's
Spouse_Id is NULL and some row references it as spouse, Spouse_Id is set to
the scalar subquery's result (the referencing row's Person_Id); otherwise
the row is unchanged. -/
def ex2UpdateOne (snapshot : List Person) (p : Person) : Person :=
  if p.spouse_id.isNone && snapshot.any (fun q => q.spouse_id == some p.person_id) then
    { p with spouse_id :=
        (snapshot.find? (fun q => q.spouse_id == some p.person_id)).map Person.person_id }
  else p

/-- The Ex2 UPDATE applied to the whole table. -/
def ex2Update (people : List Person) : List Person :=
  people.map (ex2UpdateOne people)

/-- The sample rows inserted into People (src/unnamed/part_001 lines 13-17). -/
def samplePeople : List Person :=
  [{ person_id := 111, personal_name := "David", family_name := "Cohen", gender := "M",
     father_id := none, mother_id := none, spouse_id := some 222 },
   { person_id := 222, personal_name := "Sarah", family_name := "Cohen", gender := "F",
     father_id := none, mother_id := none, spouse_id := none },
   { person_id := 333, personal_name := "Michael", family_name := "Cohen", gender := "M",
     father_id := some 111, mother_id := some 222, spouse_id := none },
   { person_id := 444, personal_name := "Rachel", family_name := "Cohen", gender := "F",
     father_id := some 111, mother_id := some 222, spouse_id := none }]

end SqlModel

namespace FrontendModel

/-! Helper lemmas about the effect model. -/

theorem submitWarns_mem {checked : List CheckedProduct} {e : Effect}
    (h : e ∈ submitWarns checked) : ∃ m, e = Effect.consoleWarnEff m := by
  rcases List.mem_filterMap.mp h with ⟨cp, _, hcp⟩
  by_cases hg : jsGtZero cp.quantityVal = true
  · rw [if_pos hg] at hcp
    cases hcp
  · rw [if_neg hg] at hcp
    exact ⟨_, (Option.some.inj hcp).symm⟩

theorem registerWarns_mem {entries : List ProductEntry} {e : Effect}
    (h : e ∈ registerWarns entries) : ∃ m, e = Effect.consoleWarnEff m := by
  rcases List.mem_filterMap.mp h with ⟨en, _, hen⟩
  by_cases hp : en.inputsPresent = true
  · rw [if_pos hp] at hen
    by_cases hv : entryFieldsValid en = true
    · rw [if_pos hv] at hen
      cases hen
    · rw [if_neg hv] at hen
      exact ⟨_, (Option.some.inj hen).symm⟩
  · rw [if_neg hp] at hen
    exact ⟨_, (Option.some.inj hen).symm⟩

theorem hasFetch_submitWarns (checked : List CheckedProduct) :
    hasFetch (submitWarns checked) = false := by
  rw [hasFetch, List.any_eq_false]
  intro e he
  rcases submitWarns_mem he with ⟨m, rfl⟩
  simp [Effect.isFetch]

theorem hasAlert_submitWarns (checked : List CheckedProduct) :
    hasAlert (submitWarns checked) = false := by
  rw [hasAlert, List.any_eq_false]
  intro e he
  rcases submitWarns_mem he with ⟨m, rfl⟩
  simp [Effect.isAlert]

theorem hasFetch_registerWarns (entries : List ProductEntry) :
    hasFetch (registerWarns entries) = false := by
  rw [hasFetch, List.any_eq_false]
  intro e he
  rcases registerWarns_mem he with ⟨m, rfl⟩
  simp [Effect.isFetch]

theorem hasAlert_registerWarns (entries : List ProductEntry) :
    hasAlert (registerWarns entries) = false := by
  rw [hasAlert, List.any_eq_false]
  intro e he
  rcases registerWarns_mem he with ⟨m, rfl⟩
  simp [Effect.isAlert]

theorem hasFetch_append (a b : List Effect) :
    hasFetch (a ++ b) = (hasFetch a || hasFetch b) := by
  simp [hasFetch, List.any_append]

theorem hasAlert_append (a b : List Effect) :
    hasAlert (a ++ b) = (hasAlert a || hasAlert b) := by
  simp [hasAlert, List.any_append]

theorem postBodies_append (a b : List Effect) :
    postBodies (a ++ b) = postBodies a ++ postBodies b := by
  simp [postBodies, List.filterMap_append]

theorem postBodies_submitWarns (checked : List CheckedProduct) :
    postBodies (submitWarns checked) = [] := by
  rw [postBodies, List.filterMap_eq_nil_iff]
  intro e he
  rcases submitWarns_mem he with ⟨m, rfl⟩
  rfl

theorem postBodies_loadAllOrdersRun (o : OrdersFetch) :
    postBodies (loadAllOrdersRun o) = [] := by
  unfold loadAllOrdersRun
  cases o with
  | ok orders =>
      by_cases h : (orders.getD []).length = 0
      · simp only [if_pos h]
        rfl
      · simp only [if_neg h]
        rfl
  | httpErr => rfl
  | netErr => rfl

/-! Claim C1. -/

/-- C1: the status lifecycle is reflected one-to-one in the rendered action
buttons: on the supplier page every rendered order carries an Approve button
(wired to approveOrder with the order's reference id) exactly when its
status is Pending, and on the owner page every rendered order carries a
Confirm Receipt / Complete button (wired to markOrderComplete) exactly when
its status is In Process; for any other status neither page renders a
button. -/
theorem C1_lifecycle_buttons (orders : List Order) :
    (∀ li ∈ orders.map renderSupplierOrderLi,
        li.approveBtnCall.isSome = true ↔ li.statusShown = "Pending")
    ∧ (∀ row ∈ orders.map renderOwnerOrderRow,
        row.completeBtnCall.isSome = true ↔ row.statusShown = "In Process") := by
  constructor
  · intro li hli
    rcases List.mem_map.mp hli with ⟨o, _, rfl⟩
    by_cases h : o.status = "Pending" <;>
      simp [renderSupplierOrderLi, h]
  · intro row hrow
    rcases List.mem_map.mp hrow with ⟨o, _, rfl⟩
    by_cases h : o.status = "In Process" <;>
      simp [renderOwnerOrderRow, h]

/-- Witness for C1 at concrete orders: a Pending order on the supplier page
gets an Approve button and an In Process order on the owner page gets a
Complete button. -/
theorem C1_lifecycle_buttons_witness :
    (renderSupplierOrderLi
        { order_reference_id := "ord-1", supplier_name := "Acme", items := [],
          total_amount := none, status := "Pending" }).approveBtnCall.isSome = true
    ∧ (renderOwnerOrderRow
        { order_reference_id := "ord-2", supplier_name := "Acme", items := [],
          total_amount := none, status := "In Process" }).completeBtnCall.isSome = true := by
  constructor
  · exact ((C1_lifecycle_buttons
      [{ order_reference_id := "ord-1", supplier_name := "Acme", items := [],
         total_amount := none, status := "Pending" }]).1 _
      (List.mem_map.mpr ⟨_, List.mem_singleton.mpr rfl, rfl⟩)).mpr rfl
  · exact ((C1_lifecycle_buttons
      [{ order_reference_id := "ord-2", supplier_name := "Acme", items := [],
         total_amount := none, status := "In Process" }]).2 _
      (List.mem_map.mpr ⟨_, List.mem_singleton.mpr rfl, rfl⟩)).mpr rfl

/-! Claims C3 and C4: the new-order submission. -/

theorem collectItems_eq_nil_iff (checked : List CheckedProduct) :
    collectItems checked = [] ↔
      (checked.any fun cp => jsGtZero cp.quantityVal) = false := by
  induction checked with
  | nil => simp [collectItems]
  | cons cp rest ih =>
      by_cases hg : jsGtZero cp.quantityVal = true
      · simp [collectItems, hg]
      · have hg' : jsGtZero cp.quantityVal = false := by
          revert hg
          cases jsGtZero cp.quantityVal <;> simp
        simp [collectItems, hg', ih]

theorem collectItems_quantity_pos (checked : List CheckedProduct) :
    ∀ it ∈ collectItems checked, 0 < it.quantity := by
  induction checked with
  | nil => simp [collectItems]
  | cons cp rest ih =>
      intro it hit
      by_cases hg : jsGtZero cp.quantityVal = true
      · rw [collectItems, if_pos hg] at hit
        rcases List.mem_cons.mp hit with rfl | h2
        · cases hq : cp.quantityVal with
          | none => rw [hq] at hg; simp [jsGtZero] at hg
          | some q =>
              rw [hq] at hg
              simp only [jsGtZero, decide_eq_true_eq] at hg
              simpa [hq] using hg
        · exact ih it h2
      · rw [collectItems, if_neg hg] at hit
        exact ih it hit

/-- C3: submitNewOrder issues its POST to /orders/ exactly when a supplier
is selected and at least one checked product has a parsed quantity greater
than zero; whenever no request is sent a validation alert is shown; and
every item of the collected payload has a positive quantity. -/
theorem C3_submit_validation (selectedSupplierName : String)
    (checked : List CheckedProduct) (po : PostFetch) (ro : OrdersFetch) :
    (hasFetch (submitNewOrderRun selectedSupplierName checked po ro) = true ↔
      (selectedSupplierName ≠ "" ∧
        (checked.any fun cp => jsGtZero cp.quantityVal) = true))
    ∧ (hasFetch (submitNewOrderRun selectedSupplierName checked po ro) = false →
        hasAlert (submitNewOrderRun selectedSupplierName checked po ro) = true)
    ∧ (∀ it ∈ collectItems checked, 0 < it.quantity) := by
  refine ⟨?_, ?_, collectItems_quantity_pos checked⟩
  all_goals unfold submitNewOrderRun
  · by_cases hs : selectedSupplierName = ""
    · simp [hs, hasFetch, Effect.isFetch]
    · have hs' : (selectedSupplierName == "") = false := by
        simp [hs]
      rw [hs']
      simp only [Bool.false_eq_true, if_false]
      by_cases hc : checked.length = 0
      · rw [if_pos hc]
        rw [List.length_eq_zero] at hc
        subst hc
        simp [hasFetch, Effect.isFetch, hs]
      · rw [if_neg hc]
        rw [hasFetch_append]
        rw [hasFetch_submitWarns]
        by_cases hi : (collectItems checked).length = 0
        · rw [if_pos hi]
          rw [List.length_eq_zero, collectItems_eq_nil_iff] at hi
          simp [hasFetch, Effect.isFetch, hs, hi]
        · rw [if_neg hi]
          rw [List.length_eq_zero, collectItems_eq_nil_iff] at hi
          have hany : (checked.any fun cp => jsGtZero cp.quantityVal) = true := by
            revert hi
            cases checked.any fun cp => jsGtZero cp.quantityVal <;> simp
          simp [hasFetch, Effect.isFetch, hs, hany]
  · by_cases hs : selectedSupplierName = ""
    · simp [hs, hasAlert, Effect.isAlert]
    · have hs' : (selectedSupplierName == "") = false := by
        simp [hs]
      rw [hs']
      simp only [Bool.false_eq_true, if_false]
      by_cases hc : checked.length = 0
      · rw [if_pos hc]
        simp [hasAlert, Effect.isAlert]
      · rw [if_neg hc]
        by_cases hi : (collectItems checked).length = 0
        · rw [if_pos hi]
          rw [hasFetch_append, hasAlert_append, hasFetch_submitWarns, hasAlert_submitWarns]
          simp [hasAlert, Effect.isAlert]
        · rw [if_neg hi]
          rw [hasFetch_append, hasFetch_submitWarns]
          simp [hasFetch, Effect.isFetch]

/-- Witness for C3: with a selected supplier and one checked product of
quantity 2, the POST is issued. -/
theorem C3_submit_validation_witness :
    hasFetch (submitNewOrderRun "Acme"
      [{ product_name := "Widget", quantityVal := some 2, priceVal := 5 }]
      PostFetch.netErr (OrdersFetch.ok none)) = true := by
  refine ((C3_submit_validation "Acme"
      [{ product_name := "Widget", quantityVal := some 2, priceVal := 5 }]
      PostFetch.netErr (OrdersFetch.ok none)).1).mpr ⟨by decide, rfl⟩

/-- C4: the only JSON body submitNewOrder ever attaches to a request is the
order payload, whose top-level fields are exactly supplier_name and items —
in particular neither status nor total_amount occurs — and each item of the
payload has exactly the fields product_name, quantity and price_per_item. -/
theorem C4_payload_shape (selectedSupplierName : String)
    (checked : List CheckedProduct) (po : PostFetch) (ro : OrdersFetch) :
    (∀ b ∈ postBodies (submitNewOrderRun selectedSupplierName checked po ro),
        b = orderPayload selectedSupplierName (collectItems checked))
    ∧ (∀ items : List OrderItem,
        (orderPayload selectedSupplierName items).topKeys = ["supplier_name", "items"]
        ∧ "status" ∉ (orderPayload selectedSupplierName items).topKeys
        ∧ "total_amount" ∉ (orderPayload selectedSupplierName items).topKeys)
    ∧ (∀ it : OrderItem,
        (itemJson it).topKeys = ["product_name", "quantity", "price_per_item"]) := by
  refine ⟨?_, fun items =>
      ⟨rfl, by simp [orderPayload, Json.topKeys], by simp [orderPayload, Json.topKeys]⟩,
    fun it => rfl⟩
  intro b hb
  unfold submitNewOrderRun at hb
  by_cases hs : selectedSupplierName = ""
  · simp [hs, postBodies] at hb
  · have hs' : (selectedSupplierName == "") = false := by
      simp [hs]
    rw [hs'] at hb
    simp only [Bool.false_eq_true, if_false] at hb
    by_cases hc : checked.length = 0
    · rw [if_pos hc] at hb
      simp [postBodies] at hb
    · rw [if_neg hc] at hb
      rw [postBodies_append, postBodies_submitWarns, List.nil_append] at hb
      by_cases hi : (collectItems checked).length = 0
      · rw [if_pos hi] at hb
        simp [postBodies] at hb
      · rw [if_neg hi] at hb
        cases po with
        | ok refId =>
            rw [show (Effect.fetchEff "POST" "/orders/"
                (some (orderPayload selectedSupplierName (collectItems checked))) ::
                (Effect.alertEff ("Order " ++ refId.getD "" ++ " created successfully!") ::
                 Effect.formResetEff "newOrderForm" ::
                 Effect.setHTMLEff "productsForOrder" HtmlContent.selectSupplierMsg ::
                 loadAllOrdersRun ro)) =
              [Effect.fetchEff "POST" "/orders/"
                (some (orderPayload selectedSupplierName (collectItems checked))),
               Effect.alertEff ("Order " ++ refId.getD "" ++ " created successfully!"),
               Effect.formResetEff "newOrderForm",
               Effect.setHTMLEff "productsForOrder" HtmlContent.selectSupplierMsg] ++
              loadAllOrdersRun ro from rfl] at hb
            rw [postBodies_append, postBodies_loadAllOrdersRun] at hb
            simp [postBodies] at hb
            exact hb
        | httpErr detail statusText =>
            simp [postBodies] at hb
            exact hb
        | netErr =>
            simp [postBodies] at hb
            exact hb

/-- Witness for C4: the body attached by a concrete failing submission is
the order payload with exactly the two expected top-level fields. -/
theorem C4_payload_shape_witness :
    (orderPayload "Acme" (collectItems
        [{ product_name := "Widget", quantityVal := some 2, priceVal := 5 }]) ∈
      postBodies (submitNewOrderRun "Acme"
        [{ product_name := "Widget", quantityVal := some 2, priceVal := 5 }]
        PostFetch.netErr (OrdersFetch.ok none)))
    ∧ (orderPayload "Acme" (collectItems
        [{ product_name := "Widget", quantityVal := some 2, priceVal := 5 }])).topKeys
        = ["supplier_name", "items"] := by
  constructor
  · exact List.mem_cons_self _ _
  · exact ((C4_payload_shape "Acme"
      [{ product_name := "Widget", quantityVal := some 2, priceVal := 5 }]
      PostFetch.netErr (OrdersFetch.ok none)).2.1 _).1

/-! Claim C5: the registration form. -/

theorem collectProducts_of_all_valid (entries : List ProductEntry)
    (h : entries.all entryValid = true) :
    collectProducts entries = entries.map entryProduct := by
  induction entries with
  | nil => rfl
  | cons e rest ih =>
      rw [List.all_cons, Bool.and_eq_true] at h
      rw [List.map_cons, collectProducts, if_pos h.1, ih h.2]

theorem collectProducts_eq_nil_of_invalid {entries : List ProductEntry} {e : ProductEntry}
    (he : e ∈ entries) (hv : entryValid e = false) :
    entries.all entryValid = false := by
  rw [List.all_eq_false]
  exact ⟨e, he, by simp [hv]⟩

/-- C5: the registration handler sends its POST to /suppliers/register
exactly when every product row is completely and validly filled and there is
at least one row; otherwise it alerts and sends nothing; and the body it
sends is the registration payload built from the collected products, which
under full validity has exactly one product per row. -/
theorem C5_register_validation (companyName phone representativeName : String)
    (entries : List ProductEntry) (o : PostFetch) :
    (hasFetch (registerRun companyName phone representativeName entries o) = true ↔
      (entries.all entryValid = true ∧ entries ≠ []))
    ∧ (hasFetch (registerRun companyName phone representativeName entries o) = false →
        hasAlert (registerRun companyName phone representativeName entries o) = true)
    ∧ (∀ b ∈ postBodies (registerRun companyName phone representativeName entries o),
        b = registerPayload companyName phone representativeName (collectProducts entries))
    ∧ (entries.all entryValid = true →
        collectProducts entries = entries.map entryProduct)
    ∧ (∀ p : RegProduct,
        (regProductJson p).topKeys = ["product_name", "price_per_item", "minimum_quantity"]) := by
  refine ⟨?_, ?_, ?_, collectProducts_of_all_valid entries, fun _ => rfl⟩
  · unfold registerRun
    by_cases hv : entries.all entryValid = true
    · rw [hv]
      simp only [Bool.not_true, Bool.false_eq_true, if_false]
      by_cases hn : entries = []
      · subst hn
        simp [collectProducts, hasFetch, Effect.isFetch, hasFetch_append,
          registerWarns]
      · have hlen : (collectProducts entries).length ≠ 0 := by
          rw [collectProducts_of_all_valid entries hv, List.length_map]
          simpa [List.length_eq_zero] using hn
        rw [if_neg hlen, hasFetch_append, hasFetch_registerWarns]
        simp [hasFetch, Effect.isFetch, hv, hn]
    · have hv' : entries.all entryValid = false := by
        revert hv
        cases entries.all entryValid <;> simp
      rw [hv']
      simp only [Bool.not_false, if_true]
      rw [hasFetch_append, hasFetch_registerWarns]
      simp [hasFetch, Effect.isFetch, hv']
  · unfold registerRun
    by_cases hv : entries.all entryValid = true
    · rw [hv]
      simp only [Bool.not_true, Bool.false_eq_true, if_false]
      by_cases hlen : (collectProducts entries).length = 0
      · rw [if_pos hlen, hasFetch_append, hasAlert_append, hasFetch_registerWarns,
          hasAlert_registerWarns]
        simp [hasAlert, Effect.isAlert]
      · rw [if_neg hlen, hasFetch_append, hasFetch_registerWarns]
        simp [hasFetch, Effect.isFetch]
    · have hv' : entries.all entryValid = false := by
        revert hv
        cases entries.all entryValid <;> simp
      rw [hv']
      simp only [Bool.not_false, if_true]
      rw [hasFetch_append, hasAlert_append, hasFetch_registerWarns, hasAlert_registerWarns]
      simp [hasAlert, Effect.isAlert]
  · intro b hb
    unfold registerRun at hb
    rw [postBodies_append] at hb
    rw [show postBodies (registerWarns entries) = [] from by
      rw [postBodies, List.filterMap_eq_nil_iff]
      intro e he
      rcases registerWarns_mem he with ⟨m, rfl⟩
      rfl] at hb
    rw [List.nil_append] at hb
    by_cases hv : entries.all entryValid = true
    · rw [hv] at hb
      simp only [Bool.not_true, Bool.false_eq_true, if_false] at hb
      by_cases hlen : (collectProducts entries).length = 0
      · rw [if_pos hlen] at hb
        simp [postBodies] at hb
      · rw [if_neg hlen] at hb
        cases o <;> simp [postBodies] at hb <;> exact hb
    · have hv' : entries.all entryValid = false := by
        revert hv
        cases entries.all entryValid <;> simp
      rw [hv'] at hb
      simp only [Bool.not_false, if_true] at hb
      simp [postBodies] at hb

/-- Witness for C5: one fully valid row makes the request go out, and the
collected products are exactly that row's product. -/
theorem C5_register_validation_witness :
    hasFetch (registerRun "Acme" "050" "Dana"
      [{ inputsPresent := true, productName := "Tea", priceVal := some 3, minQtyVal := some 1 }]
      PostFetch.netErr) = true := by
  refine ((C5_register_validation "Acme" "050" "Dana"
      [{ inputsPresent := true, productName := "Tea", priceVal := some 3, minQtyVal := some 1 }]
      PostFetch.netErr).1).mpr ⟨by rfl, by simp⟩

/-! Claim C2: how failed requests are surfaced. -/

/-- C2 counterexample: a failed GET /suppliers is surfaced by fetchSuppliers
through console logging and a DOM message only — no blocking alert is shown,
contradicting the claim that every failing request raises an alert. -/
theorem C2_error_dialogs_counterexample :
    hasAlert (fetchSuppliersRun SuppliersFetch.httpErr) = false
    ∧ hasConsoleError (fetchSuppliersRun SuppliersFetch.httpErr) = true := ⟨rfl, rfl⟩

/-- C2 amended: every failing request is surfaced, but differently per kind
of handler: the three GET loaders (fetchSuppliers, loadAllOrders,
loadOrders) log to the console and render an inline DOM error message
without any alert, while the POST/PUT handlers (submitNewOrder,
markOrderComplete, register, login, approveOrder) raise a blocking alert for
every failing request they issued. -/
theorem C2_amended_error_surfacing :
    (∀ o : SuppliersFetch, o.isFail = true →
        hasAlert (fetchSuppliersRun o) = false
        ∧ hasConsoleError (fetchSuppliersRun o) = true
        ∧ hasErrorHTML (fetchSuppliersRun o) = true)
    ∧ (∀ o : OrdersFetch, o.isFail = true →
        hasAlert (loadAllOrdersRun o) = false
        ∧ hasConsoleError (loadAllOrdersRun o) = true
        ∧ hasErrorHTML (loadAllOrdersRun o) = true)
    ∧ (∀ (companyName : String) (o : SupplierOrdersFetch), o.isFail = true →
        hasAlert (loadOrdersRun companyName o) = false
        ∧ hasConsoleError (loadOrdersRun companyName o) = true
        ∧ hasErrorHTML (loadOrdersRun companyName o) = true)
    ∧ (∀ (s : String) (checked : List CheckedProduct) (po : PostFetch) (ro : OrdersFetch),
        po.isFail = true → hasFetch (submitNewOrderRun s checked po ro) = true →
        hasAlert (submitNewOrderRun s checked po ro) = true)
    ∧ (∀ (orderRefId : String) (po : PostFetch) (ro : OrdersFetch), po.isFail = true →
        hasAlert (markOrderCompleteRun orderRefId true po ro) = true)
    ∧ (∀ (cn ph rep : String) (entries : List ProductEntry) (o : PostFetch),
        o.isFail = true → hasFetch (registerRun cn ph rep entries o) = true →
        hasAlert (registerRun cn ph rep entries o) = true)
    ∧ (∀ (cn ph : String) (o : PostFetch) (oo : SupplierOrdersFetch), o.isFail = true →
        hasFetch (loginRun cn ph o oo) = true → hasAlert (loginRun cn ph o oo) = true)
    ∧ (∀ (orderRefId ln : String) (po : PostFetch) (ro : SupplierOrdersFetch),
        po.isFail = true → hasAlert (approveOrderRun orderRefId true ln po ro) = true) := by
  refine ⟨?_, ?_, ?_, ?_, ?_, ?_, ?_, ?_⟩
  · intro o ho
    cases o with
    | ok s => simp [SuppliersFetch.isFail] at ho
    | httpErr => exact ⟨rfl, rfl, rfl⟩
    | netErr => exact ⟨rfl, rfl, rfl⟩
  · intro o ho
    cases o with
    | ok s => simp [OrdersFetch.isFail] at ho
    | httpErr => exact ⟨rfl, rfl, rfl⟩
    | netErr => exact ⟨rfl, rfl, rfl⟩
  · intro companyName o ho
    cases o with
    | ok s => simp [SupplierOrdersFetch.isFail] at ho
    | httpErr d st => exact ⟨rfl, rfl, rfl⟩
    | netErr m => exact ⟨rfl, rfl, rfl⟩
  · intro s checked po ro hpo _
    unfold submitNewOrderRun
    by_cases hs : (s == "") = true
    · rw [if_pos hs]
      rfl
    · rw [if_neg hs]
      by_cases hc : checked.length = 0
      · rw [if_pos hc]
        rfl
      · rw [if_neg hc]
        rw [hasAlert_append, hasAlert_submitWarns]
        by_cases hi : (collectItems checked).length = 0
        · rw [if_pos hi]
          rfl
        · rw [if_neg hi]
          cases po with
          | ok _ => simp [PostFetch.isFail] at hpo
          | httpErr d st => rfl
          | netErr => rfl
  · intro orderRefId po ro hpo
    cases po with
    | ok _ => simp [PostFetch.isFail] at hpo
    | httpErr d st => rfl
    | netErr => rfl
  · intro cn ph rep entries o ho _
    unfold registerRun
    rw [hasAlert_append, hasAlert_registerWarns]
    by_cases hv : entries.all entryValid = true
    · rw [hv]
      simp only [Bool.not_true, Bool.false_eq_true, if_false]
      by_cases hlen : (collectProducts entries).length = 0
      · rw [if_pos hlen]
        rfl
      · rw [if_neg hlen]
        cases o with
        | ok _ => simp [PostFetch.isFail] at ho
        | httpErr d st => rfl
        | netErr => rfl
    · have hv' : entries.all entryValid = false := by
        revert hv
        cases entries.all entryValid <;> simp
      rw [hv']
      simp only [Bool.not_false, if_true]
      rfl
  · intro cn ph o oo ho _
    unfold loginRun
    by_cases hb : (cn == "" || ph == "") = true
    · rw [if_pos hb]
      rfl
    · rw [if_neg hb]
      cases o with
      | ok _ => rfl
      | httpErr d st => rfl
      | netErr => rfl
  · intro orderRefId ln po ro hpo
    cases po with
    | ok _ => simp [PostFetch.isFail] at hpo
    | httpErr d st => rfl
    | netErr => rfl

/-- Witness for C2 at a concrete failing outcome: a network error in
fetchSuppliers logs to the console and shows no alert. -/
theorem C2_amended_error_surfacing_witness :
    SuppliersFetch.isFail SuppliersFetch.netErr = true
    ∧ hasAlert (fetchSuppliersRun SuppliersFetch.netErr) = false
    ∧ hasConsoleError (fetchSuppliersRun SuppliersFetch.netErr) = true :=
  ⟨rfl, (C2_amended_error_surfacing.1 SuppliersFetch.netErr rfl).1,
    (C2_amended_error_surfacing.1 SuppliersFetch.netErr rfl).2.1⟩

/-! Claim C7: the suppliersData frame condition. -/

theorem applySuppliers_of_no_assign {es : List Effect}
    (h : ∀ e ∈ es, e.isAssignSuppliers = false) :
    ∀ sd : List Supplier, applySuppliers es sd = sd := by
  induction es with
  | nil => intro sd; rfl
  | cons e rest ih =>
      intro sd
      have he := h e (List.mem_cons_self _ _)
      have hrest : ∀ x ∈ rest, x.isAssignSuppliers = false :=
        fun x hx => h x (List.mem_cons_of_mem _ hx)
      cases e with
      | assignSuppliersEff v => simp [Effect.isAssignSuppliers] at he
      | alertEff m => exact ih hrest sd
      | confirmEff m => exact ih hrest sd
      | consoleErrorEff m => exact ih hrest sd
      | consoleWarnEff m => exact ih hrest sd
      | fetchEff a b c => exact ih hrest sd
      | setHTMLEff a b => exact ih hrest sd
      | appendOptionEff a => exact ih hrest sd
      | formResetEff a => exact ih hrest sd

theorem applySuppliers_append (a b : List Effect) :
    ∀ sd : List Supplier, applySuppliers (a ++ b) sd = applySuppliers b (applySuppliers a sd) := by
  induction a with
  | nil => intro sd; rfl
  | cons e rest ih =>
      intro sd
      cases e with
      | assignSuppliersEff v => exact ih v
      | alertEff m => exact ih sd
      | confirmEff m => exact ih sd
      | consoleErrorEff m => exact ih sd
      | consoleWarnEff m => exact ih sd
      | fetchEff x y z => exact ih sd
      | setHTMLEff x y => exact ih sd
      | appendOptionEff x => exact ih sd
      | formResetEff x => exact ih sd

theorem applySuppliers_submitWarns (checked : List CheckedProduct) (sd : List Supplier) :
    applySuppliers (submitWarns checked) sd = sd :=
  applySuppliers_of_no_assign
    (fun e he => by rcases submitWarns_mem he with ⟨m, rfl⟩; rfl) sd

theorem applySuppliers_loadAllOrdersRun (o : OrdersFetch) (sd : List Supplier) :
    applySuppliers (loadAllOrdersRun o) sd = sd := by
  unfold loadAllOrdersRun
  cases o with
  | ok orders =>
      by_cases h : (orders.getD []).length = 0
      · simp only [if_pos h]
        rfl
      · simp only [if_neg h]
        rfl
  | httpErr => rfl
  | netErr => rfl

/-- C7: replaying any owner-page operation's effects over the module
variable suppliersData leaves it unchanged, except fetchSuppliers, which on
success assigns data.suppliers (or the empty array) and on failure leaves
the variable untouched. -/
theorem C7_suppliersData_frame :
    (∀ (sel : String) (sd0 sd : List Supplier),
        applySuppliers (displayProductsForOrderRun sel sd0) sd = sd)
    ∧ (∀ (s : String) (checked : List CheckedProduct) (po : PostFetch) (ro : OrdersFetch)
        (sd : List Supplier),
        applySuppliers (submitNewOrderRun s checked po ro) sd = sd)
    ∧ (∀ (o : OrdersFetch) (sd : List Supplier),
        applySuppliers (loadAllOrdersRun o) sd = sd)
    ∧ (∀ (orderRefId : String) (c : Bool) (po : PostFetch) (ro : OrdersFetch)
        (sd : List Supplier),
        applySuppliers (markOrderCompleteRun orderRefId c po ro) sd = sd)
    ∧ (∀ (suppliers : Option (List Supplier)) (sd : List Supplier),
        applySuppliers (fetchSuppliersRun (SuppliersFetch.ok suppliers)) sd = suppliers.getD [])
    ∧ (∀ (o : SuppliersFetch) (sd : List Supplier), o.isFail = true →
        applySuppliers (fetchSuppliersRun o) sd = sd) := by
  refine ⟨?_, ?_, ?_, ?_, ?_, ?_⟩
  · intro sel sd0 sd
    unfold displayProductsForOrderRun
    repeat' split
    all_goals rfl
  · intro s checked po ro sd
    unfold submitNewOrderRun
    by_cases hs : (s == "") = true
    · rw [if_pos hs]
      rfl
    · rw [if_neg hs]
      by_cases hc : checked.length = 0
      · rw [if_pos hc]
        rfl
      · rw [if_neg hc]
        rw [applySuppliers_append]
        rw [applySuppliers_submitWarns]
        by_cases hi : (collectItems checked).length = 0
        · rw [if_pos hi]
          rfl
        · rw [if_neg hi]
          cases po with
          | ok refId => exact applySuppliers_loadAllOrdersRun ro sd
          | httpErr d st => rfl
          | netErr => rfl
  · intro o sd
    exact applySuppliers_loadAllOrdersRun o sd
  · intro orderRefId c po ro sd
    cases c with
    | false => rfl
    | true =>
        cases po with
        | ok m => exact applySuppliers_loadAllOrdersRun ro sd
        | httpErr d st => rfl
        | netErr => rfl
  · intro suppliers sd
    show applySuppliers
      ((suppliers.getD []).map fun s =>
        if jsTruthyStr s.company_name then Effect.appendOptionEff (s.company_name.getD "")
        else Effect.consoleWarnEff "Skipping supplier with missing data:")
      (suppliers.getD []) = suppliers.getD []
    exact applySuppliers_of_no_assign
      (fun e he => by
        rcases List.mem_map.mp he with ⟨sp, hsp, rfl⟩
        by_cases hg : jsTruthyStr sp.company_name = true
        · rw [if_pos hg]
          rfl
        · rw [if_neg hg]
          rfl)
      (suppliers.getD [])
  · intro o sd ho
    cases o with
    | ok s => simp [SuppliersFetch.isFail] at ho
    | httpErr => rfl
    | netErr => rfl

/-- Witness for C7: a failed fetchSuppliers leaves a concrete suppliersData
value unchanged. -/
theorem C7_suppliersData_frame_witness :
    SuppliersFetch.isFail SuppliersFetch.netErr = true
    ∧ applySuppliers (fetchSuppliersRun SuppliersFetch.netErr) [] = [] :=
  ⟨rfl, C7_suppliersData_frame.2.2.2.2.2 SuppliersFetch.netErr [] rfl⟩

/-! Claim C8: outstanding requests per handler. -/

theorem maxOutstandingAux_awaited (n : Nat) :
    ∀ i m : Nat, maxOutstandingAux (awaitedTraceAux i n) 0 m = max m (min n 1) := by
  induction n with
  | zero =>
      intro i m
      simp [awaitedTraceAux, maxOutstandingAux]
  | succ k ih =>
      intro i m
      show maxOutstandingAux
        (NetEvent.start i :: NetEvent.finish i :: awaitedTraceAux (i + 1) k) 0 m = _
      rw [maxOutstandingAux, maxOutstandingAux]
      rw [show (0 + 1 : Nat) - 1 = 0 from rfl]
      rw [ih (i + 1) (max m (0 + 1))]
      simp only [Nat.zero_add, Nat.min_def, Nat.max_def]
      split_ifs <;> omega

theorem maxOutstanding_awaited_le_one (es : List Effect) :
    maxOutstanding (awaitedTrace es) ≤ 1 := by
  unfold maxOutstanding awaitedTrace
  rw [maxOutstandingAux_awaited]
  simp only [Nat.min_def, Nat.max_def]
  split_ifs <;> omega

/-- C8 counterexample: the DOMContentLoaded handler starts the
fetchSuppliers request and the loadAllOrders request without awaiting
either, so two requests are outstanding at once — the claim that every
handler, the page-load handler included, keeps at most one request in
flight is false. -/
theorem C8_single_request_counterexample : maxOutstanding pageLoadTrace = 2 := rfl

/-- C8 amended: every handler that awaits each of its fetches — which is
every handler of both scripts except the page-load handler — has at most one
request outstanding at any time, while the page-load handler reaches two
simultaneously outstanding requests. -/
theorem C8_amended_single_request :
    (∀ (s : String) (checked : List CheckedProduct) (po : PostFetch) (ro : OrdersFetch),
        maxOutstanding (awaitedTrace (submitNewOrderRun s checked po ro)) ≤ 1)
    ∧ (∀ (orderRefId : String) (c : Bool) (po : PostFetch) (ro : OrdersFetch),
        maxOutstanding (awaitedTrace (markOrderCompleteRun orderRefId c po ro)) ≤ 1)
    ∧ (∀ (cn ph rep : String) (entries : List ProductEntry) (o : PostFetch),
        maxOutstanding (awaitedTrace (registerRun cn ph rep entries o)) ≤ 1)
    ∧ (∀ (cn ph : String) (o : PostFetch) (oo : SupplierOrdersFetch),
        maxOutstanding (awaitedTrace (loginRun cn ph o oo)) ≤ 1)
    ∧ (∀ (orderRefId : String) (c : Bool) (ln : String) (po : PostFetch)
        (ro : SupplierOrdersFetch),
        maxOutstanding (awaitedTrace (approveOrderRun orderRefId c ln po ro)) ≤ 1)
    ∧ (∀ o : OrdersFetch, maxOutstanding (awaitedTrace (loadAllOrdersRun o)) ≤ 1)
    ∧ (∀ (cn : String) (o : SupplierOrdersFetch),
        maxOutstanding (awaitedTrace (loadOrdersRun cn o)) ≤ 1)
    ∧ (∀ o : SuppliersFetch, maxOutstanding (awaitedTrace (fetchSuppliersRun o)) ≤ 1)
    ∧ maxOutstanding pageLoadTrace = 2 :=
  ⟨fun _ _ _ _ => maxOutstanding_awaited_le_one _,
   fun _ _ _ _ => maxOutstanding_awaited_le_one _,
   fun _ _ _ _ _ => maxOutstanding_awaited_le_one _,
   fun _ _ _ _ => maxOutstanding_awaited_le_one _,
   fun _ _ _ _ _ => maxOutstanding_awaited_le_one _,
   fun _ => maxOutstanding_awaited_le_one _,
   fun _ _ => maxOutstanding_awaited_le_one _,
   fun _ => maxOutstanding_awaited_le_one _,
   rfl⟩

end FrontendModel

namespace SqlModel

/-! Claims C6, C9, C10: the SQL genealogy script. -/

theorem siblingLabel_spec (g : String) :
    ((if g == "M" then "brother" else "sister") = "brother" ↔ g = "M")
    ∧ ((if g == "M" then "brother" else "sister") = "brother"
        ∨ (if g == "M" then "brother" else "sister") = "sister") := by
  by_cases hg : g = "M"
  · subst hg
    exact ⟨⟨fun _ => rfl, fun _ => rfl⟩, Or.inl rfl⟩
  · have hb : (g == "M") = false := by
      simp [hg]
    rw [show (if g == "M" then "brother" else "sister") = "sister" from by rw [hb]; rfl]
    exact ⟨⟨fun h => absurd h (by decide), fun h => absurd h hg⟩, Or.inr rfl⟩

theorem childLabel_spec (g : String) :
    ((if g == "M" then "son" else "daughter") = "son" ↔ g = "M")
    ∧ ((if g == "M" then "son" else "daughter") = "son"
        ∨ (if g == "M" then "son" else "daughter") = "daughter") := by
  by_cases hg : g = "M"
  · subst hg
    exact ⟨⟨fun _ => rfl, fun _ => rfl⟩, Or.inl rfl⟩
  · have hb : (g == "M") = false := by
      simp [hg]
    rw [show (if g == "M" then "son" else "daughter") = "daughter" from by rw [hb]; rfl]
    exact ⟨⟨fun h => absurd h (by decide), fun h => absurd h hg⟩, Or.inr rfl⟩

/-- C6: the Ex1 INSERT produces, for every person with a non-null
Father_Id, a father row and a reverse child row labelled by the child's
gender; symmetrically for Mother_Id; and for every person with a non-null
Spouse_Id a spouse row labelled wife when the person is male and husband
otherwise. -/
theorem C6_family_tree_insert (people : List Person) (p : Person) (hp : p ∈ people) :
    (∀ f, p.father_id = some f →
        ({ person_id := p.person_id, relative_id := f, connection_type := "father" } : FamilyRow)
          ∈ familyTreeInsert people
        ∧ ({ person_id := f, relative_id := p.person_id,
             connection_type := if p.gender == "M" then "son" else "daughter" } : FamilyRow)
          ∈ familyTreeInsert people)
    ∧ (∀ m, p.mother_id = some m →
        ({ person_id := p.person_id, relative_id := m, connection_type := "mother" } : FamilyRow)
          ∈ familyTreeInsert people
        ∧ ({ person_id := m, relative_id := p.person_id,
             connection_type := if p.gender == "M" then "son" else "daughter" } : FamilyRow)
          ∈ familyTreeInsert people)
    ∧ (∀ sp, p.spouse_id = some sp →
        ({ person_id := p.person_id, relative_id := sp,
           connection_type := if p.gender == "M" then "wife" else "husband" } : FamilyRow)
          ∈ familyTreeInsert people) := by
  refine ⟨?_, ?_, ?_⟩
  · intro f hf
    constructor
    · have hA :
          ({ person_id := p.person_id, relative_id := f,
             connection_type := "father" } : FamilyRow) ∈ fatherRows people :=
        List.mem_filterMap.mpr ⟨p, hp, by rw [hf]; rfl⟩
      simp only [familyTreeInsert, List.mem_append]
      exact Or.inl (Or.inl (Or.inl (Or.inl (Or.inl hA))))
    · have hD :
          ({ person_id := f, relative_id := p.person_id,
             connection_type := if p.gender == "M" then "son" else "daughter" } : FamilyRow)
            ∈ fatherChildRows people :=
        List.mem_filterMap.mpr ⟨p, hp, by rw [hf]; rfl⟩
      simp only [familyTreeInsert, List.mem_append]
      exact Or.inl (Or.inl (Or.inr hD))
  · intro m hm
    constructor
    · have hB :
          ({ person_id := p.person_id, relative_id := m,
             connection_type := "mother" } : FamilyRow) ∈ motherRows people :=
        List.mem_filterMap.mpr ⟨p, hp, by rw [hm]; rfl⟩
      simp only [familyTreeInsert, List.mem_append]
      exact Or.inl (Or.inl (Or.inl (Or.inl (Or.inr hB))))
    · have hE :
          ({ person_id := m, relative_id := p.person_id,
             connection_type := if p.gender == "M" then "son" else "daughter" } : FamilyRow)
            ∈ motherChildRows people :=
        List.mem_filterMap.mpr ⟨p, hp, by rw [hm]; rfl⟩
      simp only [familyTreeInsert, List.mem_append]
      exact Or.inl (Or.inr hE)
  · intro sp hsp
    have hF :
        ({ person_id := p.person_id, relative_id := sp,
           connection_type := if p.gender == "M" then "wife" else "husband" } : FamilyRow)
          ∈ spouseRows people :=
      List.mem_filterMap.mpr ⟨p, hp, by rw [hsp]; rfl⟩
    simp only [familyTreeInsert, List.mem_append]
    exact Or.inr hF

/-- Witness for C6 on the script's sample data: Michael (333, son of 111
and 222) yields a father row and a son row. -/
theorem C6_family_tree_insert_witness :
    ({ person_id := 333, relative_id := 111, connection_type := "father" } : FamilyRow)
      ∈ familyTreeInsert samplePeople
    ∧ ({ person_id := 111, relative_id := 333, connection_type := "son" } : FamilyRow)
      ∈ familyTreeInsert samplePeople := by
  have h := C6_family_tree_insert samplePeople
    { person_id := 333, personal_name := "Michael", family_name := "Cohen", gender := "M",
      father_id := some 111, mother_id := some 222, spouse_id := none }
    (by simp [samplePeople])
  exact ⟨(h.1 111 rfl).1, (h.1 111 rfl).2⟩

/-- C9: every sibling row produced by Ex1 takes its brother/sister label
from the gender of the row's Person_Id side (never from the relative), and
is produced only for a person with both parents non-null sharing at least
one parent with a distinct relative; by contrast the son/daughter rows take
their label from the gender of the row's Relative_Id side (the child). -/
theorem C9_sibling_label (people : List Person) :
    (∀ row ∈ siblingRows people, ∃ p1, p1 ∈ people ∧ ∃ p2, p2 ∈ people ∧
        row.person_id = p1.person_id ∧ row.relative_id = p2.person_id ∧
        p1.father_id ≠ none ∧ p1.mother_id ≠ none ∧
        p1.person_id ≠ p2.person_id ∧
        (optEqSQL p1.father_id p2.father_id = true ∨ optEqSQL p1.mother_id p2.mother_id = true) ∧
        (row.connection_type = "brother" ↔ p1.gender = "M") ∧
        (row.connection_type = "brother" ∨ row.connection_type = "sister"))
    ∧ (∀ row ∈ fatherChildRows people ++ motherChildRows people, ∃ c, c ∈ people ∧
        row.relative_id = c.person_id ∧
        (row.connection_type = "son" ↔ c.gender = "M") ∧
        (row.connection_type = "son" ∨ row.connection_type = "daughter")) := by
  constructor
  · intro row hrow
    rcases List.mem_flatMap.mp hrow with ⟨p1, hp1, hmem⟩
    rcases List.mem_filterMap.mp hmem with ⟨p2, hp2, heq⟩
    by_cases hc : ((optEqSQL p1.father_id p2.father_id || optEqSQL p1.mother_id p2.mother_id)
        && !(p1.person_id == p2.person_id) && p1.father_id.isSome && p1.mother_id.isSome) = true
    · rw [if_pos hc] at heq
      obtain rfl := Option.some.inj heq
      rw [Bool.and_eq_true, Bool.and_eq_true, Bool.and_eq_true] at hc
      obtain ⟨⟨⟨hor, hne⟩, hfs⟩, hms⟩ := hc
      refine ⟨p1, hp1, p2, hp2, rfl, rfl, ?_, ?_, ?_, ?_, ?_, ?_⟩
      · exact Option.isSome_iff_ne_none.mp hfs
      · exact Option.isSome_iff_ne_none.mp hms
      · simpa using hne
      · simpa using hor
      · exact (siblingLabel_spec p1.gender).1
      · exact (siblingLabel_spec p1.gender).2
    · rw [if_neg hc] at heq
      cases heq
  · intro row hrow
    rcases List.mem_append.mp hrow with h | h
    · rcases List.mem_filterMap.mp h with ⟨c, hc, heq⟩
      rcases Option.map_eq_some'.mp heq with ⟨f, hcf, hrow2⟩
      subst hrow2
      exact ⟨c, hc, rfl, (childLabel_spec c.gender).1, (childLabel_spec c.gender).2⟩
    · rcases List.mem_filterMap.mp h with ⟨c, hc, heq⟩
      rcases Option.map_eq_some'.mp heq with ⟨m, hcm, hrow2⟩
      subst hrow2
      exact ⟨c, hc, rfl, (childLabel_spec c.gender).1, (childLabel_spec c.gender).2⟩

/-- Witness for C9: in the sample data Michael (male, both parents set)
produces the sibling row (333, 444, brother), whose label comes from
Michael's own gender although the relative, Rachel, is female. -/
theorem C9_sibling_label_witness :
    (({ person_id := 333, relative_id := 444, connection_type := "brother" } : FamilyRow)
        ∈ siblingRows samplePeople)
    ∧ (∃ p1, p1 ∈ samplePeople ∧ ∃ p2, p2 ∈ samplePeople ∧
        ({ person_id := 333, relative_id := 444,
           connection_type := "brother" } : FamilyRow).person_id = p1.person_id ∧
        ({ person_id := 333, relative_id := 444,
           connection_type := "brother" } : FamilyRow).relative_id = p2.person_id ∧
        p1.father_id ≠ none ∧ p1.mother_id ≠ none ∧
        p1.person_id ≠ p2.person_id ∧
        (optEqSQL p1.father_id p2.father_id = true ∨ optEqSQL p1.mother_id p2.mother_id = true) ∧
        (({ person_id := 333, relative_id := 444,
            connection_type := "brother" } : FamilyRow).connection_type = "brother"
          ↔ p1.gender = "M") ∧
        (({ person_id := 333, relative_id := 444,
            connection_type := "brother" } : FamilyRow).connection_type = "brother"
          ∨ ({ person_id := 333, relative_id := 444,
               connection_type := "brother" } : FamilyRow).connection_type = "sister")) := by
  have hmem :
      ({ person_id := 333, relative_id := 444,
         connection_type := "brother" } : FamilyRow) ∈ siblingRows samplePeople := by
    decide
  exact ⟨hmem, (C9_sibling_label samplePeople).1 _ hmem⟩

theorem eq_of_mem_of_length_le_one {α : Type} {l : List α} (h : l.length ≤ 1)
    {a b : α} (ha : a ∈ l) (hb : b ∈ l) : a = b := by
  cases l with
  | nil => cases ha
  | cons x t =>
      cases t with
      | nil =>
          rw [List.mem_singleton] at ha hb
          rw [ha, hb]
      | cons y u =>
          exfalso
          simp only [List.length_cons] at h
          omega

/-- C10: on a People table where each person is referenced as spouse by at
most one other person, the Ex2 UPDATE fills in the Spouse_Id of exactly
those rows whose Spouse_Id was NULL while some other row referenced them —
setting it to the referencing row's Person_Id — and leaves every other row
untouched. -/
theorem C10_spouse_update (people : List Person) (p : Person)
    (huniq : (people.filter fun q => q.spouse_id == some p.person_id).length ≤ 1) :
    (∀ q ∈ people, q.spouse_id = some p.person_id → p.spouse_id = none →
        (ex2UpdateOne people p).spouse_id = some q.person_id)
    ∧ ((¬ (p.spouse_id = none ∧ ∃ q ∈ people, q.spouse_id = some p.person_id)) →
        ex2UpdateOne people p = p)
    ∧ ex2Update people = people.map (ex2UpdateOne people) := by
  refine ⟨?_, ?_, rfl⟩
  · intro q hq hqs hnone
    have hany : (people.any fun r => r.spouse_id == some p.person_id) = true :=
      List.any_eq_true.mpr ⟨q, hq, by simp [hqs]⟩
    have hcond : (p.spouse_id.isNone
        && (people.any fun r => r.spouse_id == some p.person_id)) = true := by
      rw [hnone, hany]
      rfl
    unfold ex2UpdateOne
    rw [if_pos hcond]
    cases hq0 : people.find? (fun r => r.spouse_id == some p.person_id) with
    | none =>
        rw [List.find?_eq_none] at hq0
        exact absurd (by simp [hqs]) (hq0 q hq)
    | some q0 =>
        have hq0mem := List.mem_of_find?_eq_some hq0
        have hq0p := List.find?_some hq0
        have hqq0 : q = q0 := eq_of_mem_of_length_le_one huniq
          (List.mem_filter.mpr ⟨hq, by simp [hqs]⟩)
          (List.mem_filter.mpr ⟨hq0mem, hq0p⟩)
        rw [hqq0]
        rfl
  · intro hno
    have hcond : (p.spouse_id.isNone
        && (people.any fun r => r.spouse_id == some p.person_id)) = false := by
      by_contra hcontra
      have hc : (p.spouse_id.isNone
          && (people.any fun r => r.spouse_id == some p.person_id)) = true := by
        revert hcontra
        cases p.spouse_id.isNone && (people.any fun r => r.spouse_id == some p.person_id) <;> simp
      rw [Bool.and_eq_true] at hc
      refine hno ⟨Option.isNone_iff_eq_none.mp hc.1, ?_⟩
      rcases List.any_eq_true.mp hc.2 with ⟨q, hqmem, hqb⟩
      exact ⟨q, hqmem, by simpa using hqb⟩
    unfold ex2UpdateOne
    rw [if_neg (by rw [hcond]; exact Bool.false_ne_true)]

/-- Witness for C10 on the script's sample data: Sarah (222) has a NULL
Spouse_Id and is referenced by David (111), so the UPDATE sets her
Spouse_Id to 111. -/
theorem C10_spouse_update_witness :
    (ex2UpdateOne samplePeople
      { person_id := 222, personal_name := "Sarah", family_name := "Cohen", gender := "F",
        father_id := none, mother_id := none, spouse_id := none }).spouse_id = some 111 :=
  (C10_spouse_update samplePeople
    { person_id := 222, personal_name := "Sarah", family_name := "Cohen", gender := "F",
      father_id := none, mother_id := none, spouse_id := none }
    (by decide)).1
    { person_id := 111, personal_name := "David", family_name := "Cohen", gender := "M",
      father_id := none, mother_id := none, spouse_id := some 222 }
    (by simp [samplePeople]) rfl rfl

end SqlModel
